import Mathlib

/-!
Verification development for the `palm` TCP test-harness backend
(`src/backend.rs`).  The backend's data model (`NetState`, `DataPacket`,
`Log`/`LogData`), the `Connection` and `Server` handles, and the steps of
the connection-lifecycle engine (connect phase, managed session reader and
writer loops, session epilogue) are shallowly embedded as executable Lean
definitions.  Asynchronous channel effects are made explicit:

* the `tokio::watch` shutdown channel is a `Bool` flag (its current value);
* the `tokio::mpsc` log channel is the list of entries sent on it so far;
* the `tokio::broadcast` send queue is the list of queued packets together
  with the number of live receiver handles (`broadcast::Sender::send`
  errors exactly when that number is zero);
* a Rust `panic!` / `.unwrap()` failure is the `Res.panicked` constructor;
* timestamps (`chrono::Local::now()`) are an explicit `Nat` parameter;
* an `std::io::Error` is represented by its message `String`.
-/

namespace Palm

/-- Tri-state connectivity flag, from `enum NetState` (backend.rs:450-457);
`Inactive` is the `#[default]` variant. -/
inductive NetState where
  | Inactive
  | Establishing
  | Active
deriving DecidableEq

/-- Origin tag plus byte payload, from `struct DataPacket` (backend.rs:438-448).
Bytes are modelled as `Nat`s; an empty `address` marks a locally sent packet. -/
structure DataPacket where
  address : String
  data : List Nat
deriving DecidableEq

/-- Log event payloads, from `enum LogData` (backend.rs:425-436).
`ConnectError` and `FatalReadError` carry the I/O error's message. -/
inductive LogData where
  | ClientConnect : String → LogData
  | ClientDisconnect : String → LogData
  | ServerStarted : LogData
  | ServerStopped : LogData
  | ReceivedPacket : DataPacket → LogData
  | SentPacket : DataPacket → LogData
  | ConnectError : String → LogData
  | ConnectTimedOut : LogData
  | FatalReadError : String → LogData
deriving DecidableEq

/-- Timestamped log entry, from `struct Log` (backend.rs:378-382). -/
structure Log where
  data : LogData
  timestamp : Nat
deriving DecidableEq

/-- `Log::new` (backend.rs:385-390); the current time is passed explicitly. -/
def Log.new (d : LogData) (t : Nat) : Log := ⟨d, t⟩

/-- Result of a Rust computation that may `panic!` (an `.unwrap()` on an
`Err`/failed send, or an explicit `panic!`). -/
inductive Res (α : Type) where
  | ok : α → Res α
  | panicked : String → Res α
deriving DecidableEq

/-- Number of `Log` entries in `l` whose payload is exactly `d`. -/
def countLog (d : LogData) (l : List Log) : Nat :=
  l.countP (fun lg => decide (lg.data = d))

/-- Whether a log entry is a `ConnectError` (with any message). -/
def isConnectErrorLog : Log → Bool
  | ⟨LogData.ConnectError _, _⟩ => true
  | _ => false

/-- Whether a log entry is the `ConnectTimedOut` event. -/
def isConnectTimedOutLog : Log → Bool
  | ⟨LogData.ConnectTimedOut, _⟩ => true
  | _ => false

/-- Shallow model of `struct Connection` (backend.rs:19-30).  The paired
channel endpoints are replaced by their observable contents:
`shutdown_flag` is the watch channel's value, `log_channel` the entries
pending in the mpsc log channel, `sender_queue`/`sender_receivers` the
broadcast send queue's contents and its live receiver-handle count. -/
structure Connection where
  address : Option String
  net_state : NetState
  logs : List Log
  shutdown_flag : Bool
  log_channel : List Log
  sender_receivers : Nat
  sender_queue : List DataPacket
deriving DecidableEq

/-- `Connection::new` (backend.rs:33-49): state defaults to `Inactive`, all
buffers empty, and the struct itself keeps the `sender_rx` receiver handle of
the broadcast channel it just created, so `sender_receivers = 1`. -/
def Connection.new : Connection :=
  ⟨none, NetState.Inactive, [], false, [], 1, []⟩

/-- Result of `Connection::send_data` (an `anyhow::Result<()>`). -/
inductive SendOutcome where
  | sent
  | sendError
deriving DecidableEq

/-- `Connection::send_data` (backend.rs:230-235): wrap the payload in a
`DataPacket` with empty origin, publish it on the broadcast send queue
(`broadcast::Sender::send` errors — propagated by `?` — exactly when no
receiver handle is live), then push a `SentPacket` entry directly onto the
local `logs` buffer. -/
def Connection.send_data (c : Connection) (d : List Nat) (t : Nat) :
    Connection × SendOutcome :=
  let packet : DataPacket := ⟨"", d⟩
  if c.sender_receivers = 0 then (c, SendOutcome.sendError)
  else
    ({ c with
        sender_queue := c.sender_queue ++ [packet],
        logs := c.logs ++ [Log.new (LogData.SentPacket packet) t] },
      SendOutcome.sent)

/-- `SentPacket` log entries produced by successively sending the payloads
`ps`, the first at time `t` and each subsequent one a tick later: one entry
per payload, in submission order, each wrapping a `DataPacket` with empty
origin and the payload's exact bytes. -/
def sentLogs : List (List Nat) → Nat → List Log
  | [], _ => []
  | p :: rest, t => Log.new (LogData.SentPacket ⟨"", p⟩) t :: sentLogs rest (t + 1)

/-- Fold of `Connection::send_data` over a list of payloads, the first call
at time `t` and each subsequent one a tick later. -/
def sendMany : Connection → List (List Nat) → Nat → Connection
  | c, [], _ => c
  | c, p :: rest, t => sendMany (c.send_data p t).1 rest (t + 1)

/-- `Connection::shutdown` (backend.rs:244-246): `shutdown_tx.send(true)`,
setting the watch channel's value; nothing else is touched.  (The `.unwrap()`
cannot fire: the struct's own `shutdown_rx` keeps a receiver alive.) -/
def Connection.shutdown (c : Connection) : Connection :=
  { c with shutdown_flag := true }

/-- Shallow model of `struct Server` (backend.rs:257-268), with channel
endpoints replaced by observable contents as in `Connection`. -/
structure Server where
  port : Option Nat
  net_state : NetState
  logs : List Log
  shutdown_flag : Bool
  log_channel : List Log
deriving DecidableEq

/-- `Server::new` (backend.rs:271-286). -/
def Server.new : Server :=
  ⟨none, NetState.Inactive, [], false, []⟩

/-- `Server::shutdown` (backend.rs:335-337): `shutdown_tx.send(true)`. -/
def Server.shutdown (s : Server) : Server :=
  { s with shutdown_flag := true }

/-- Outcome of `timeout(8s, TcpStream::connect(..))` in the client task
(backend.rs:67): connection established, connect error, or timeout elapsed. -/
inductive ConnectOutcome where
  | success : ConnectOutcome
  | connectError : String → ConnectOutcome
  | timedOut : ConnectOutcome
deriving DecidableEq

/-- Outcome of `TcpListener::bind` in the server task (backend.rs:300). -/
inductive BindOutcome where
  | success : BindOutcome
  | bindError : String → BindOutcome
deriving DecidableEq

/-- Connect timeout of `Connection::start_client`, from
`Duration::from_secs(8)` (backend.rs:67). -/
def connectTimeoutSecs : Nat := 8

/-- Synchronous part of `Connection::start_client` (backend.rs:51-64), up to
and including `rt.spawn`: panic unless the state is `Inactive`, record the
address, and store `Establishing` — this store happens before the task is
spawned, on the caller's thread. -/
def Connection.start_client (c : Connection) (address : String) :
    Res Connection :=
  if c.net_state ≠ NetState.Inactive then
    Res.panicked "Cannot start_client if connection establishing or already established"
  else
    Res.ok { c with address := some address, net_state := NetState.Establishing }

/-- Synchronous part of `Connection::start_established` (backend.rs:101-119),
up to and including `tokio::spawn`: panic unless the state is `Inactive` and
record the address.  No `net_state` store happens here — the `Active` store
is the first statement of the spawned task (backend.rs:120). -/
def Connection.start_established (c : Connection) (address : String) :
    Res Connection :=
  if c.net_state ≠ NetState.Inactive then
    Res.panicked "Cannot start_client if connection establishing or already established"
  else
    Res.ok { c with address := some address }

/-- Synchronous part of `Server::start` (backend.rs:288-298), up to and
including `rt.spawn`: panic unless the state is `Inactive` and record the
port.  No `net_state` store happens here — the `Establishing` store is the
first statement of the spawned task (backend.rs:299). -/
def Server.start (s : Server) (port : Nat) : Res Server :=
  if s.net_state ≠ NetState.Inactive then
    Res.panicked "Cannot start_server if server establishing or already established"
  else
    Res.ok { s with port := some port }

/-- Connect phase of the spawned client task (backend.rs:66-84), as a
function of the connect attempt's outcome: the final `net_state` value it
stores and the entries it sends on the log channel.  On error it logs
`ConnectError` and stores `Inactive`; on timeout it logs `ConnectTimedOut`
and stores `Inactive`; on success it stores `Active` and logs
`Connect(address)` before entering the managed session. -/
def clientConnectPhase (address : String) (out : ConnectOutcome) (t : Nat) :
    NetState × List Log :=
  match out with
  | ConnectOutcome.connectError e =>
      (NetState.Inactive, [Log.new (LogData.ConnectError e) t])
  | ConnectOutcome.timedOut =>
      (NetState.Inactive, [Log.new LogData.ConnectTimedOut t])
  | ConnectOutcome.success =>
      (NetState.Active, [Log.new (LogData.ClientConnect address) t])

/-- Bind phase of the spawned server task (backend.rs:298-306): store
`Establishing`, then `TcpListener::bind(..).await.unwrap()`.  Returns the
last `net_state` value stored, the entries sent on the log channel, and
whether the task panicked.  On a bind error the `.unwrap()` panics: the
state is left at `Establishing` and nothing is logged.  On success the task
stores `Active` and logs `ServerStarted`. -/
def serverBindPhase (bo : BindOutcome) (t : Nat) :
    NetState × List Log × Res Unit :=
  match bo with
  | BindOutcome.success =>
      (NetState.Active, [Log.new LogData.ServerStarted t], Res.ok ())
  | BindOutcome.bindError e =>
      (NetState.Establishing, [], Res.panicked e)

/-- Channel state visible to one arm of the managed session: the watch
shutdown flag and the mpsc log channel contents (backend.rs:138-157). -/
structure SessionChannels where
  shutdown_flag : Bool
  log_channel : List Log
deriving DecidableEq

/-- Outcome of one `reader.read(&mut read_data)` call: `bytes d` for
`Ok(read_bytes)` with `d` the bytes read (zero-length for `Ok(0)`),
`interrupted` for an `ErrorKind::Interrupted` error, `fatalError` for any
other error. -/
inductive ReadOutcome where
  | bytes : List Nat → ReadOutcome
  | interrupted : ReadOutcome
  | fatalError : String → ReadOutcome
deriving DecidableEq

/-- One iteration of the reader loop's read arm (backend.rs:173-195), given
its peer address `r_address` and the read's outcome.  Returns the updated
channels and whether the loop `break`s.  An interrupted error `continue`s
with no effect; any other error sends `FatalReadError` on the log channel,
raises the shutdown flag and breaks; zero bytes raises the shutdown flag
(peer closed) without logging; `read_bytes > 0` logs a `ReceivedPacket`
whose origin is the peer address and whose payload is the bytes read. -/
def readerStep (r_address : String) (s : SessionChannels) (o : ReadOutcome)
    (t : Nat) : SessionChannels × Bool :=
  match o with
  | ReadOutcome.interrupted => (s, false)
  | ReadOutcome.fatalError e =>
      ({ s with
          log_channel := s.log_channel ++ [Log.new (LogData.FatalReadError e) t],
          shutdown_flag := true }, true)
  | ReadOutcome.bytes d =>
      if d.length = 0 then
        ({ s with shutdown_flag := true }, false)
      else
        ({ s with
            log_channel := s.log_channel ++
              [Log.new (LogData.ReceivedPacket ⟨r_address, d⟩) t] }, false)

/-- Result of one socket write or flush call in the writer loop. -/
inductive WriteResult where
  | ok : WriteResult
  | ioError : String → WriteResult
deriving DecidableEq

/-- One iteration of the writer loop's packet arm (backend.rs:209-214):
`writer.write_all(&send_data.data).await.unwrap()` then
`writer.flush().await.unwrap()`.  Either call's failure panics the writer
task via `.unwrap()`; on success the channels are untouched (the writer
logs nothing). -/
def writerStep (s : SessionChannels) (_p : DataPacket)
    (writeRes flushRes : WriteResult) : Res SessionChannels :=
  match writeRes with
  | WriteResult.ioError e => Res.panicked e
  | WriteResult.ok =>
      match flushRes with
      | WriteResult.ioError e => Res.panicked e
      | WriteResult.ok => Res.ok s

/-- State touched by the epilogue of `Connection::manage`: the shutdown
flag, the shared `net_state`, the connection's own log channel and, for an
adopted connection, the parent server's log channel. -/
structure ManageEnv where
  shutdown_flag : Bool
  net_state : NetState
  log_channel : List Log
  parent_log_channel : Option (List Log)
deriving DecidableEq

/-- Epilogue of `Connection::manage` after `tokio::join!` returns
(backend.rs:220-227): `shutdown_tx.send(false)` resets the flag, `Inactive`
is stored, and one `Disconnect(address)` entry is sent to the parent
server's log channel when present and one to the connection's own. -/
def manageEpilogue (address : String) (t : Nat) (m : ManageEnv) : ManageEnv :=
  { shutdown_flag := false
    net_state := NetState.Inactive
    log_channel := m.log_channel ++ [Log.new (LogData.ClientDisconnect address) t]
    parent_log_channel :=
      m.parent_log_channel.map
        (fun l => l ++ [Log.new (LogData.ClientDisconnect address) t]) }

/-- Sequence of values stored to `net_state` by a `start_client` call run to
completion, in program order: `Establishing` synchronously (backend.rs:63);
then, in the task, `Inactive` on a failed or timed-out connect
(backend.rs:72,78) or `Active` on success (backend.rs:82) followed by the
managed session's final `Inactive` (backend.rs:221). -/
def startClientStores (out : ConnectOutcome) : List NetState :=
  NetState.Establishing ::
    match out with
    | ConnectOutcome.connectError _ => [NetState.Inactive]
    | ConnectOutcome.timedOut => [NetState.Inactive]
    | ConnectOutcome.success => [NetState.Active, NetState.Inactive]

/-- Sequence of values stored to `net_state` by a `start_established` call
run to completion: `Active` as the spawned task's first statement
(backend.rs:120) — no `Establishing` store exists on this path — then the
managed session's final `Inactive` (backend.rs:221). -/
def startEstablishedStores : List NetState :=
  [NetState.Active, NetState.Inactive]

/-- Sequence of values stored to `net_state` by a `Server::start` call run
to completion: `Establishing` (backend.rs:299); then `Active` and, when the
accept loop ends on shutdown, `Inactive` (backend.rs:304,329) — unless bind
fails, where the `.unwrap()` panic (backend.rs:302) ends the task with no
further store. -/
def serverStartStores (bo : BindOutcome) : List NetState :=
  NetState.Establishing ::
    match bo with
    | BindOutcome.success => [NetState.Active, NetState.Inactive]
    | BindOutcome.bindError _ => []

/-- One complete start operation on a `Connection`, for forming legal call
sequences (a start is only issued once the state is back to `Inactive`). -/
inductive ConnOp where
  | startClient : ConnectOutcome → ConnOp
  | adopt : ConnOp
deriving DecidableEq

/-- The `net_state` stores performed by one `ConnOp`. -/
def connOpStores : ConnOp → List NetState
  | ConnOp.startClient out => startClientStores out
  | ConnOp.adopt => startEstablishedStores

/-- The `net_state` stores performed by a legal sequence of complete start
operations on one `Connection`. -/
def connSeqStores (ops : List ConnOp) : List NetState :=
  (ops.map connOpStores).flatten

/-- The transition relation asserted by the specification: only the edges of
`Inactive→Establishing→Active→Inactive` and
`Inactive→Establishing→Inactive`. -/
def claimAllowed : NetState → NetState → Bool
  | NetState.Inactive, NetState.Establishing => true
  | NetState.Establishing, NetState.Active => true
  | NetState.Establishing, NetState.Inactive => true
  | NetState.Active, NetState.Inactive => true
  | _, _ => false

/-- The transition relation the code actually exhibits: the specification's
edges plus the direct `Inactive→Active` edge taken by `start_established`. -/
def codeAllowed : NetState → NetState → Bool
  | NetState.Inactive, NetState.Active => true
  | a, b => claimAllowed a b

/-- `transitionsOkBy allowed s l` holds when every consecutive transition of
the store sequence `l`, starting from state `s`, is an `allowed` edge. -/
def transitionsOkBy (allowed : NetState → NetState → Bool) :
    NetState → List NetState → Bool
  | _, [] => true
  | s, t :: rest => allowed s t && transitionsOkBy allowed t rest

/-- Last state of a store sequence, or the start state when it is empty. -/
def lastState : NetState → List NetState → NetState
  | s, [] => s
  | _, t :: rest => lastState t rest

/-- A store sequence validated from `s` whose continuation is validated from
its last state is validated as a whole. -/
theorem transitionsOkBy_append (allowed : NetState → NetState → Bool)
    (s : NetState) (l m : List NetState)
    (h1 : transitionsOkBy allowed s l = true)
    (h2 : transitionsOkBy allowed (lastState s l) m = true) :
    transitionsOkBy allowed s (l ++ m) = true := by
  induction l generalizing s with
  | nil => simpa [lastState] using h2
  | cons a rest ih =>
      simp only [transitionsOkBy, Bool.and_eq_true, List.cons_append] at h1 ⊢
      exact ⟨h1.1, ih a h1.2 h2⟩

/-- Every complete start operation on a `Connection` produces a store
sequence that follows the code's transition edges and returns to
`Inactive`. -/
theorem connOp_stores_ok (op : ConnOp) :
    transitionsOkBy codeAllowed NetState.Inactive (connOpStores op) = true ∧
    lastState NetState.Inactive (connOpStores op) = NetState.Inactive := by
  cases op with
  | adopt => exact ⟨rfl, rfl⟩
  | startClient out => cases out <;> exact ⟨rfl, rfl⟩

/-- C1 counterexample: the legal one-call sequence consisting of a single
server-side adoption (`start_established` on a fresh `Inactive` connection)
performs the store sequence `[Active, Inactive]`, whose first transition
`Inactive→Active` is not among the edges the claim allows. -/
theorem C1_counterexample :
    transitionsOkBy claimAllowed NetState.Inactive
      (connSeqStores [ConnOp.adopt]) = false := by
  rfl

/-- C1 (amended): for every legal call sequence, `net_state` transitions
only along `Inactive→Establishing→Active→Inactive`,
`Inactive→Establishing→Inactive`, or — for a connection adopted via
`start_established` — `Inactive→Active→Inactive`; the adoption path moves
the state from `Inactive` directly to `Active`, skipping `Establishing`. -/
theorem C1_netstate_transitions (ops : List ConnOp) (bo : BindOutcome) :
    transitionsOkBy codeAllowed NetState.Inactive (connSeqStores ops) = true ∧
    transitionsOkBy codeAllowed NetState.Inactive (serverStartStores bo) = true := by
  constructor
  · induction ops with
    | nil => rfl
    | cons op rest ih =>
        have h := connOp_stores_ok op
        have hall := transitionsOkBy_append codeAllowed NetState.Inactive
          (connOpStores op) (connSeqStores rest) h.1 (by rw [h.2]; exact ih)
        simpa [connSeqStores] using hall
  · cases bo <;> rfl

/-- C2 counterexample: a freshly constructed `Connection` is `Inactive`
with no session running, yet `send_data` returns success, not an error —
the struct's own retained `sender_rx` keeps the broadcast channel's
receiver count at 1, so `broadcast::Sender::send` cannot fail. -/
theorem C2_counterexample :
    Connection.new.net_state = NetState.Inactive ∧
    Connection.new.sender_receivers = 1 ∧
    (Connection.new.send_data [222, 173, 190, 239] 0).2 = SendOutcome.sent := by
  exact ⟨rfl, rfl, rfl⟩

/-- C2 (amended): `send_data` returns an error result exactly when the
broadcast send queue has zero live receivers, and succeeds otherwise —
never a panic in either case; since `Connection::new` retains its own
receiver handle, a `Connection` always has at least one receiver and
`send_data` succeeds even with no active session. -/
theorem C2_send_error_iff_no_receivers (c : Connection) (d : List Nat) (t : Nat) :
    ((c.send_data d t).2 = SendOutcome.sendError ↔ c.sender_receivers = 0) ∧
    (c.sender_receivers ≠ 0 → (c.send_data d t).2 = SendOutcome.sent) ∧
    Connection.new.sender_receivers = 1 := by
  refine ⟨?_, ?_, rfl⟩
  · by_cases h : c.sender_receivers = 0 <;> simp [Connection.send_data, h]
  · intro h
    simp [Connection.send_data, h]

/-- Witness for C2: on a fresh connection (one retained receiver) a
concrete `send_data` call succeeds. -/
theorem C2_send_error_iff_no_receivers_witness :
    (Connection.new.send_data [1, 2, 3] 0).2 = SendOutcome.sent :=
  (C2_send_error_iff_no_receivers Connection.new [1, 2, 3] 0).2.1 (by decide)

/-- C3: when `Server::start` runs in state `Inactive` and the bind fails
(for example the port is busy), the spawned task panics on the `.unwrap()`
of the bind result: no failure entry is logged and the state is left at
`Establishing`, not reset to `Inactive` — the code does not honour the
recoverable contract the claim (and the client connect path) describes. -/
theorem C3_bind_failure_panics :
    serverBindPhase (BindOutcome.bindError "AddrInUse") 0 =
      (NetState.Establishing, [], Res.panicked "AddrInUse") := rfl

/-- C4 counterexample: a socket write error in the writer loop is a
mid-session I/O failure, yet the writer task panics on the `.unwrap()`,
appending no log entry, instead of retrying or logging a state reset. -/
theorem C4_counterexample :
    writerStep ⟨false, []⟩ ⟨"", [1]⟩ (WriteResult.ioError "BrokenPipe")
      WriteResult.ok = Res.panicked "BrokenPipe" := rfl

/-- C4 (amended): mid-session read failures are either silently retried
(interrupted class: no state change, no log entry) or produce exactly one
timestamped `FatalReadError` entry with the shutdown signal raised and the
reader loop exited; socket write and flush errors in the writer loop are
neither retried nor logged — they panic the writer task via `.unwrap()`. -/
theorem C4_read_failures_logged_or_retried (addr e : String)
    (s : SessionChannels) (t : Nat) :
    readerStep addr s ReadOutcome.interrupted t = (s, false) ∧
    readerStep addr s (ReadOutcome.fatalError e) t =
      ({ shutdown_flag := true,
         log_channel := s.log_channel ++ [Log.new (LogData.FatalReadError e) t] },
        true) ∧
    (∀ p fr, writerStep s p (WriteResult.ioError e) fr = Res.panicked e) ∧
    (∀ p, writerStep s p WriteResult.ok (WriteResult.ioError e) = Res.panicked e) := by
  exact ⟨rfl, rfl, fun p fr => rfl, fun p => rfl⟩

/-- C5: after both session loops exit, the epilogue of `Connection::manage`
resets the local shutdown flag, stores `Inactive`, and appends exactly one
`Disconnect(address)` entry to the connection's own log channel and — when a
parent sink was supplied at adoption — exactly one to the parent's; with no
parent sink, no parent channel appears. -/
theorem C5_epilogue_disconnect (addr : String) (t : Nat) (m : ManageEnv) :
    (manageEpilogue addr t m).shutdown_flag = false ∧
    (manageEpilogue addr t m).net_state = NetState.Inactive ∧
    countLog (LogData.ClientDisconnect addr) (manageEpilogue addr t m).log_channel =
      countLog (LogData.ClientDisconnect addr) m.log_channel + 1 ∧
    (∀ pl, m.parent_log_channel = some pl →
      ∃ pl', (manageEpilogue addr t m).parent_log_channel = some pl' ∧
        countLog (LogData.ClientDisconnect addr) pl' =
          countLog (LogData.ClientDisconnect addr) pl + 1) ∧
    (m.parent_log_channel = none →
      (manageEpilogue addr t m).parent_log_channel = none) := by
  refine ⟨rfl, rfl, ?_, ?_, ?_⟩
  · simp [countLog, manageEpilogue, List.countP_append, List.countP_cons, Log.new]
  · intro pl hpl
    refine ⟨pl ++ [Log.new (LogData.ClientDisconnect addr) t], ?_, ?_⟩
    · simp [manageEpilogue, hpl]
    · simp [countLog, List.countP_append, List.countP_cons, Log.new]
  · intro hn
    simp [manageEpilogue, hn]

/-- Witness for C5 at a concrete adopted-session environment with an empty
parent sink. -/
theorem C5_epilogue_disconnect_witness :
    (manageEpilogue "1.2.3.4:80" 7 ⟨true, NetState.Active, [], some []⟩).net_state =
      NetState.Inactive ∧
    ∃ pl', (manageEpilogue "1.2.3.4:80" 7
        ⟨true, NetState.Active, [], some []⟩).parent_log_channel = some pl' ∧
      countLog (LogData.ClientDisconnect "1.2.3.4:80") pl' = 1 := by
  have h := C5_epilogue_disconnect "1.2.3.4:80" 7 ⟨true, NetState.Active, [], some []⟩
  obtain ⟨pl', h1, h2⟩ := h.2.2.2.1 [] rfl
  exact ⟨h.2.1, pl', h1, by simpa [countLog] using h2⟩

/-- C6: each read outcome in the reader loop is handled exactly as claimed:
zero bytes raises the local shutdown flag with no log entry; an
interrupted-class error is retried silently with no log entry; any other
read error logs one `FatalReadError`, raises the shutdown flag and exits
the loop; a read of N > 0 bytes logs one `ReceivedPacket` whose origin is
the peer address and whose payload is exactly the bytes read. -/
theorem C6_reader_step_cases (addr e : String) (d : List Nat)
    (s : SessionChannels) (t : Nat) (hd : d.length ≠ 0) :
    readerStep addr s (ReadOutcome.bytes []) t =
      ({ s with shutdown_flag := true }, false) ∧
    readerStep addr s ReadOutcome.interrupted t = (s, false) ∧
    readerStep addr s (ReadOutcome.fatalError e) t =
      ({ shutdown_flag := true,
         log_channel := s.log_channel ++ [Log.new (LogData.FatalReadError e) t] },
        true) ∧
    readerStep addr s (ReadOutcome.bytes d) t =
      ({ s with log_channel := s.log_channel ++
          [Log.new (LogData.ReceivedPacket ⟨addr, d⟩) t] }, false) := by
  refine ⟨rfl, rfl, rfl, ?_⟩
  simp [readerStep, hd]

/-- Witness for C6: a concrete four-byte read on a fresh session produces
one `ReceivedPacket` with the peer's address and those four bytes. -/
theorem C6_reader_step_cases_witness :
    readerStep "9.9.9.9:1" ⟨false, []⟩ (ReadOutcome.bytes [222, 173, 190, 239]) 3 =
      (⟨false, [Log.new (LogData.ReceivedPacket
        ⟨"9.9.9.9:1", [222, 173, 190, 239]⟩) 3]⟩, false) :=
  (C6_reader_step_cases "9.9.9.9:1" "e" [222, 173, 190, 239] ⟨false, []⟩ 3
    (by decide)).2.2.2

/-- C7: successful `send_data` calls wrap each payload in a `DataPacket`
with empty origin and append exactly one `SentPacket` entry per payload
directly to the local `logs` buffer, in submission order with byte-identical
payloads, while the async log channel is left untouched. -/
theorem C7_sent_entries (c : Connection) (ps : List (List Nat)) (t : Nat)
    (h : c.sender_receivers ≠ 0) :
    (sendMany c ps t).logs = c.logs ++ sentLogs ps t ∧
    (sendMany c ps t).log_channel = c.log_channel ∧
    (sentLogs ps t).length = ps.length := by
  induction ps generalizing c t with
  | nil => simp [sendMany, sentLogs]
  | cons p rest ih =>
      have hstep : (c.send_data p t).1 =
          { c with
              sender_queue := c.sender_queue ++ [⟨"", p⟩],
              logs := c.logs ++ [Log.new (LogData.SentPacket ⟨"", p⟩) t] } := by
        simp [Connection.send_data, h]
      have hrec := ih ((c.send_data p t).1) (t + 1) (by rw [hstep]; exact h)
      refine ⟨?_, ?_, ?_⟩
      · simp only [sendMany, sentLogs]
        rw [hrec.1, hstep]
        simp [List.append_assoc]
      · simp only [sendMany]
        rw [hrec.2.1, hstep]
      · simp only [sentLogs, List.length_cons]
        exact congrArg Nat.succ (ih c (t + 1) h).2.2

/-- Witness for C7: two concrete sends on a fresh connection yield exactly
their two `SentPacket` entries in order, with the log channel untouched. -/
theorem C7_sent_entries_witness :
    (sendMany Connection.new [[1], [2, 3]] 0).logs =
      [Log.new (LogData.SentPacket ⟨"", [1]⟩) 0,
       Log.new (LogData.SentPacket ⟨"", [2, 3]⟩) 1] ∧
    (sendMany Connection.new [[1], [2, 3]] 0).log_channel = [] := by
  have h := C7_sent_entries Connection.new [[1], [2, 3]] 0 (by decide)
  exact ⟨h.1.trans (by decide), h.2.1⟩

/-- C8: when the connect attempt of `start_client` does not succeed, the
task logs exactly one of `ConnectError` or `ConnectTimedOut` — never both,
never neither — and stores `Inactive`; the timeout bound is the fixed
8 seconds of `Duration::from_secs(8)`. -/
theorem C8_connect_failure_exclusive (addr e : String) (t : Nat) :
    ((clientConnectPhase addr (ConnectOutcome.connectError e) t).1 =
        NetState.Inactive ∧
      (clientConnectPhase addr (ConnectOutcome.connectError e) t).2.countP
        isConnectErrorLog = 1 ∧
      (clientConnectPhase addr (ConnectOutcome.connectError e) t).2.countP
        isConnectTimedOutLog = 0) ∧
    ((clientConnectPhase addr ConnectOutcome.timedOut t).1 = NetState.Inactive ∧
      (clientConnectPhase addr ConnectOutcome.timedOut t).2.countP
        isConnectErrorLog = 0 ∧
      (clientConnectPhase addr ConnectOutcome.timedOut t).2.countP
        isConnectTimedOutLog = 1) ∧
    connectTimeoutSecs = 8 := by
  exact ⟨⟨rfl, rfl, rfl⟩, ⟨rfl, rfl, rfl⟩, rfl⟩

/-- C9: `shutdown` on a `Connection` or `Server` only sets the shutdown
flag to true; it appends nothing to any log, leaves every other field
unchanged, and is idempotent — a repeated call yields the very same state,
so no additional `Disconnect` entry can arise from it. -/
theorem C9_shutdown_idempotent (c : Connection) (s : Server) :
    (Connection.shutdown c).shutdown_flag = true ∧
    Connection.shutdown (Connection.shutdown c) = Connection.shutdown c ∧
    (Connection.shutdown c).logs = c.logs ∧
    (Connection.shutdown c).log_channel = c.log_channel ∧
    (Connection.shutdown c).net_state = c.net_state ∧
    (Connection.shutdown c).address = c.address ∧
    (Server.shutdown s).shutdown_flag = true ∧
    Server.shutdown (Server.shutdown s) = Server.shutdown s ∧
    (Server.shutdown s).logs = s.logs ∧
    (Server.shutdown s).log_channel = s.log_channel := by
  exact ⟨rfl, rfl, rfl, rfl, rfl, rfl, rfl, rfl, rfl, rfl⟩

/-- C10: `Server::start` and `Connection::start_established` run their
not-`Inactive` guard and return with no `net_state` store — the
`Establishing` (server) or `Active` (adopted connection) store is the first
statement of the spawned task — so right after either call returns,
`net_state` still reads `Inactive` and a second start call issued in that
window also passes the guard without panicking. -/
theorem C10_guard_before_store (srv : Server) (c : Connection) (port : Nat)
    (addr : String) (hs : srv.net_state = NetState.Inactive)
    (hc : c.net_state = NetState.Inactive) :
    (∃ srv', Server.start srv port = Res.ok srv' ∧
      srv'.net_state = NetState.Inactive ∧
      ∃ srv'', Server.start srv' port = Res.ok srv'') ∧
    (∃ c', Connection.start_established c addr = Res.ok c' ∧
      c'.net_state = NetState.Inactive ∧
      ∃ c'', Connection.start_established c' addr = Res.ok c'') ∧
    (serverStartStores BindOutcome.success).head? = some NetState.Establishing ∧
    startEstablishedStores.head? = some NetState.Active := by
  refine ⟨?_, ?_, rfl, rfl⟩
  · refine ⟨{ srv with port := some port }, ?_, hs,
      { srv with port := some port }, ?_⟩
    · simp [Server.start, hs]
    · simp [Server.start, hs]
  · refine ⟨{ c with address := some addr }, ?_, hc,
      { c with address := some addr }, ?_⟩
    · simp [Connection.start_established, hc]
    · simp [Connection.start_established, hc]

/-- Witness for C10: a fresh `Inactive` server accepts two consecutive
`start` guard checks before any task has stored a state. -/
theorem C10_guard_before_store_witness :
    ∃ srv', Server.start Server.new 9000 = Res.ok srv' ∧
      srv'.net_state = NetState.Inactive ∧
      ∃ srv'', Server.start srv' 9000 = Res.ok srv'' :=
  (C10_guard_before_store Server.new Connection.new 9000 "1.2.3.4:80" rfl rfl).1

end Palm
